import Mathlib

/-!
Shallow embedding of the ramses view layer (src/ramses/views.py): the
nested-resource query resolver, the dual-backend accessors (authoritative
store and elasticsearch index), the bulk operations of CollectionView and
the REST view generator.

Python values occurring in request params and model fields are embedded as
`Py`; request params and keyword dicts are insertion-ordered association
lists (`Params`) with dict-style lookup, overwriting assignment and pop.

The request plumbing inside the parent-queryset helpers (request.blank,
registry, matchdict) only serves to re-run the parent view and resolve the
parent item; the embedding takes the outcome of that resolution as inputs:
`hasView` stands for the hasattr(parent, view) test, `parent_obj` for the
object the parent view resolved, `prop` for self._resource.collection_name.
Backends are opaque collaborators: each accessor returns a description of
the one physical query it issues, or a short-circuit result, so that frame
properties (zero queries issued) are directly readable off the result.
-/

namespace Ramses

/-- Primitive Python values (strings, ints, booleans) as they occur in ids,
request params and model fields. -/
inductive Atom
  | str (s : String)
  | int (n : Int)
  | bool (b : Bool)
  deriving DecidableEq

/-- Python str() of an atom (canonical string form of an id). -/
def Atom.pyStr : Atom → String
  | Atom.str s => s
  | Atom.int n => toString n
  | Atom.bool b => if b then "True" else "False"

/-- Python repr() of an atom; only used for str() of a list value. -/
def Atom.pyRepr : Atom → String
  | Atom.str s => String.mk [Char.ofNat 39] ++ s ++ String.mk [Char.ofNat 39]
  | a => Atom.pyStr a

/-- An embedded Python value: an atom, a list of atoms (a relation field
holding a collection of ids or references), or None. -/
inductive Py
  | atom (a : Atom)
  | list (l : List Atom)
  | noneV
  deriving DecidableEq

/-- Python str() of a value. -/
def Py.pyStr : Py → String
  | Py.atom a => a.pyStr
  | Py.list l => "[" ++ String.intercalate ", " (l.map Atom.pyRepr) ++ "]"
  | Py.noneV => "None"

/-- A Python dict with string keys (request params, kwargs), embedded as an
insertion-ordered association list with unique keys. -/
abbrev Params := List (String × Py)

/-- Dict lookup: first binding of the key. -/
def lookupP : Params → String → Option Py
  | [], _ => Option.none
  | p :: rest, key => if p.1 = key then some p.2 else lookupP rest key

/-- Dict deletion of a key (del / pop). -/
def removeP : Params → String → Params
  | [], _ => []
  | p :: rest, key => if p.1 = key then removeP rest key else p :: removeP rest key

/-- Dict assignment d[key] = v: overwrite in place if the key is bound,
append otherwise. -/
def setP : Params → String → Py → Params
  | [], key, v => [(key, v)]
  | p :: rest, key, v => if p.1 = key then (key, v) :: rest else p :: setP rest key v

/-- Dict update: assign every binding of kvs into ps (dict.update). -/
def updateP (ps kvs : Params) : Params :=
  kvs.foldl (fun acc kv => setP acc kv.1 kv.2) ps

/-- Dict pop with default None: the popped value (if any) and the remaining
dict. -/
def popP (ps : Params) (key : String) : Option Py × Params :=
  (lookupP ps key, removeP ps key)

/-- A resolved model object: a mapping from field names to values. -/
structure Obj where
  attrs : Params
  deriving DecidableEq

/-- Python getattr(obj, prop, None): the field value, None when absent. -/
def getattrND (o : Obj) (p : String) : Py :=
  (lookupP o.attrs p).getD Py.noneV

/-- Python getattr(obj, prop) without default: AttributeError (error) when
the field is absent. -/
def getattr_strict (o : Obj) (p : String) : Except Unit Py :=
  match lookupP o.attrs p with
  | some v => Except.ok v
  | Option.none => Except.error ()

/-- Modelled from the spec: the nefertari model instance method
obj.update(params) is not under src/; per the operation table of the spec
(singular delete clears the parent relation, leaving the parent otherwise
unchanged) it sets each given field to the given value and leaves every
other field untouched. -/
def Obj.update (o : Obj) (kvs : Params) : Obj :=
  ⟨updateP o.attrs kvs⟩

/-- Exceptions surfaced by the embedded code: JHTTPNotFound, and a Python
TypeError from iterating or joining a value of the wrong shape. -/
inductive Err
  | typeError
  | notFound
  deriving DecidableEq

/-- Python str.split(sep, 1)[1]: everything after the first separator.
Mirrors resolve_kw, which maps a key like story_id to id (views.py line 45);
resource id names contain an underscore by construction (an id name without
one would raise IndexError in the source). -/
def afterFirstUnderscore (s : String) : String :=
  match s.splitOn "_" with
  | [] => s
  | [_] => s
  | _ :: rest => String.intercalate "_" rest

/-- ESBaseView._parent_queryset_es (views.py lines 168-186): None (no view
on the parent resource, or relation absent / set to None) means
unrestricted; a list-valued relation is mapped through str() to the
canonical string ids; iterating a non-iterable raises TypeError. -/
def parent_queryset_es : Bool → Obj → String → Except Err (Option (List String))
  | false, _, _ => Except.ok Option.none
  | true, parent_obj, prop =>
    match getattrND parent_obj prop with
    | Py.noneV => Except.ok Option.none
    | Py.list l => Except.ok (some (l.map Atom.pyStr))
    | Py.atom _ => Except.error Err.typeError

/-- ESBaseView._get_raw_terms (views.py lines 161-166): pop the reserved
key q from the params when present, and join the collected terms with
" AND "; joining a non-string value raises TypeError. Returns the raw
terms string and the params after the pop. -/
def get_raw_terms (params : Params) : Except Err (String × Params) :=
  match lookupP params "q" with
  | Option.none => Except.ok (String.intercalate " AND " [], params)
  | some (Py.atom (Atom.str v)) => Except.ok (String.intercalate " AND " [v], removeP params "q")
  | some _ => Except.error Err.typeError

/-- Outcome of ESBaseView.get_collection_es: either the short-circuit empty
list (returned without touching the index), or the single
es.get_collection call with its raw terms and params. -/
inductive GCES
  | empty
  | call (raw_terms : String) (params : Params)
  deriving DecidableEq

/-- ESBaseView.get_collection_es (views.py lines 188-206): resolve the
parent restriction; an empty restriction returns [] before any index
query; a non-empty restriction overwrites the id param; then the raw terms
are popped (argument evaluation order: _get_raw_terms runs before
**self._params is unpacked) and the single index query is issued. -/
def get_collection_es (hasView : Bool) (parent_obj : Obj) (prop : String) (params : Params) :
    Except Err GCES :=
  match parent_queryset_es hasView parent_obj prop with
  | Except.error e => Except.error e
  | Except.ok (some []) => Except.ok GCES.empty
  | Except.ok (some l) =>
    match get_raw_terms (setP params "id" (Py.list (l.map Atom.str))) with
    | Except.error e => Except.error e
    | Except.ok pr => Except.ok (GCES.call pr.1 pr.2)
  | Except.ok Option.none =>
    match get_raw_terms params with
    | Except.error e => Except.error e
    | Except.ok pr => Except.ok (GCES.call pr.1 pr.2)

/-- Number of physical index queries issued by a get_collection_es run. -/
def gces_query_count : Except Err GCES → Nat
  | Except.ok (GCES.call _ _) => 1
  | _ => 0

/-- The kwargs of the es.get_collection call made by get_item_es
(views.py lines 225-228): the resolved id key bound to the string id, then
_limit = 1 and __raise_on_empty = True assigned dict-style. -/
def item_es_kwargs (idName : String) (item_id : String) : Params :=
  setP (setP [(afterFirstUnderscore idName, Py.atom (Atom.str item_id))]
      "_limit" (Py.atom (Atom.int 1)))
    "__raise_on_empty" (Py.atom (Atom.bool true))

/-- ESBaseView.get_item_es (views.py lines 208-229): canonicalize the
requested id with str(); resolve the parent restriction; when a concrete
restriction exists and does not contain the id, raise JHTTPNotFound before
any index query; otherwise issue the single index query whose kwargs are
returned (limit 1, raise-on-empty). An error result issues no query. -/
def get_item_es (hasView : Bool) (parent_obj : Obj) (prop : String) (idName : String)
    (idArg : Py) : Except Err Params :=
  match parent_queryset_es hasView parent_obj prop with
  | Except.error e => Except.error e
  | Except.ok (some l) =>
    if idArg.pyStr ∈ l then Except.ok (item_es_kwargs idName idArg.pyStr)
    else Except.error Err.notFound
  | Except.ok Option.none => Except.ok (item_es_kwargs idName idArg.pyStr)

/-- Number of physical index queries issued by a get_item_es run. -/
def item_es_query_count : Except Err Params → Nat
  | Except.ok _ => 1
  | _ => 0

/-- The raw terms string determined by the request params: the AND-join of
the supplied free-text terms (the value of the reserved key q when one is
present, no terms otherwise). Characterizes the first component of
get_raw_terms. -/
def raw_terms_of (params : Params) : String :=
  match lookupP params "q" with
  | some (Py.atom (Atom.str v)) => String.intercalate " AND " [v]
  | _ => String.intercalate " AND " []

/-- The outcome of get_item_es as a function of the resolved parent
restriction (proved equal to get_item_es in get_item_es_cases below). -/
def item_es_outcome (idName : String) (idArg : Py) :
    Option (List String) → Except Err Params
  | some l =>
    if idArg.pyStr ∈ l then Except.ok (item_es_kwargs idName idArg.pyStr)
    else Except.error Err.notFound
  | Option.none => Except.ok (item_es_kwargs idName idArg.pyStr)

/-- The number of index queries get_item_es issues as a function of the
resolved parent restriction. -/
def item_es_outcome_count (idArg : Py) : Option (List String) → Nat
  | some l => if idArg.pyStr ∈ l then 1 else 0
  | Option.none => 1

/-- The outcome of get_collection_es as a function of the resolved parent
restriction (proved equal to get_collection_es in
get_collection_es_cases below). -/
def gces_outcome (params : Params) : Option (List String) → Except Err GCES
  | some [] => Except.ok GCES.empty
  | some l =>
    match get_raw_terms (setP params "id" (Py.list (l.map Atom.str))) with
    | Except.error e => Except.error e
    | Except.ok pr => Except.ok (GCES.call pr.1 pr.2)
  | Option.none =>
    match get_raw_terms params with
    | Except.error e => Except.error e
    | Except.ok pr => Except.ok (GCES.call pr.1 pr.2)

/-- BaseView._parent_queryset (views.py lines 59-75): None when the parent
resource carries no view, or for item subresource views (the early return
after resolving the parent item), or when the relation attribute is absent
(getattr default None); otherwise the attribute value itself. -/
def parent_queryset : Bool → Bool → Obj → String → Py
  | false, _, _, _ => Py.noneV
  | true, true, _, _ => Py.noneV
  | true, false, parent_obj, prop => getattrND parent_obj prop

/-- Outcome of BaseView.get_collection: either
self._model_class.filter_objects(objects, **params) over the parent
queryset, or the unrestricted self._model_class.get_collection(**params). -/
inductive GCStore
  | filtered (objects : Py) (params : Params)
  | full (params : Params)
  deriving DecidableEq

/-- BaseView.get_collection (views.py lines 77-89): merge kwargs into the
shared params dict, then dispatch on whether a parent queryset exists. -/
def get_collection (hasView isItemSub : Bool) (parent_obj : Obj) (prop : String)
    (params kwargs : Params) : GCStore :=
  match parent_queryset hasView isItemSub parent_obj prop with
  | Py.noneV => GCStore.full (updateP params kwargs)
  | objects => GCStore.filtered objects (updateP params kwargs)

/-- Modelled from the spec: the authoritative-store accessor (nefertari
filter_objects / model get_collection are not under src/). Per the accessor
contract of the spec, a read restricted to the empty set returns an empty
result with zero physical queries; any other read issues one physical
query, answered by the opaque backend functions db (unrestricted) and
memf (restricted/filtered). Returns (result, number of physical queries). -/
def store_read (db memf : Params → List Atom) : GCStore → List Atom × Nat
  | GCStore.filtered (Py.list []) _ => ([], 0)
  | GCStore.filtered _ p => (memf p, 1)
  | GCStore.full p => (db p, 1)

/-- Modelled from the spec: BaseView.needs_confirmation is nefertari code
not under src/; per the spec it reports whether the request lacks the
explicit confirmation marker. -/
def needs_confirmation (hasMarker : Bool) : Bool := !hasMarker

/-- Result of CollectionView.delete_many: the unconfirmed invocation
returns the resolved candidate set (whose count is observable on the
returned queryset); the confirmed one returns the Deleted message carrying
the count computed at resolution time. -/
inductive DMResult
  | candidates (objects : List Atom) (count : Nat)
  | deleted (count : Nat)
  deriving DecidableEq

/-- CollectionView.delete_many (views.py lines 133-142): resolve the
collection (here: objects, the backend response), compute its count, and
either return the candidates without mutating, or bulk-delete them. The
second component lists the _delete_many mutation calls performed. -/
def delete_many (objects : List Atom) (hasMarker : Bool) : DMResult × List (List Atom) :=
  let count := objects.length
  if needs_confirmation hasMarker then (DMResult.candidates objects count, [])
  else (DMResult.deleted count, [objects])

/-- Outcome of CollectionView.update_many: the get_collection dispatch used
to resolve the target set, and the params passed as payload to
self._model_class._update_many(objects, **self._params). -/
structure UMOutcome where
  objects : GCStore
  payload : Params
  deriving DecidableEq

/-- CollectionView.update_many (views.py lines 144-149): pop _limit from
the shared params dict (default None), call get_collection(_limit=_limit)
(whose self._params.update(kwargs) re-inserts the popped key into the same
shared dict), then pass **self._params to the bulk update. -/
def update_many (hasView isItemSub : Bool) (parent_obj : Obj) (prop : String)
    (params : Params) : UMOutcome :=
  let popped := popP params "_limit"
  let kw : Params := [("_limit", popped.1.getD Py.noneV)]
  { objects := get_collection hasView isItemSub parent_obj prop popped.2 kw
    payload := updateP popped.2 kw }

/-- ItemSingularView.show (views.py lines 301-303): resolve the parent item
and return getattr(parent_obj, self.attr) (no default: AttributeError when
the field is absent). -/
def singular_show (parent_obj : Obj) (attr : String) : Except Unit Py :=
  getattr_strict parent_obj attr

/-- ItemSingularView.delete (views.py lines 317-320): resolve the parent
item and set its relation attribute to None via obj.update. -/
def singular_delete (parent_obj : Obj) (attr : String) : Obj :=
  Obj.update parent_obj [(attr, Py.noneV)]

/-- The collection-level HTTP method table (views.py lines 14-20). -/
def collection_methods : List (String × String) :=
  [("get", "index"), ("post", "create"), ("put", "update_many"),
   ("patch", "update_many"), ("delete", "delete_many")]

/-- The item-level HTTP method table (views.py lines 21-27). -/
def item_methods : List (String × String) :=
  [("get", "show"), ("post", "create"), ("put", "update"),
   ("patch", "update"), ("delete", "delete")]

/-- collection_methods.values() + item_methods.values()
(views.py line 342). -/
def valid_attrs : List String :=
  collection_methods.map Prod.snd ++ item_methods.map Prod.snd

/-- What the generated view class binds to an operation name: an inherited
handler from the chosen base view class, or property(_attr_error), the
property that raises at access time (the MethodNotAllowed signal: the
source docstring says the property raising AttributeError exists "to
display MethodNotAllowed error"). -/
inductive ViewAttr
  | handler
  | attrErrorProp
  deriving DecidableEq

/-- generate_rest_view (views.py lines 323-363): the generated class maps
every canonical operation name missing from attrs to property(_attr_error)
(setattr loop over missing_attrs, lines 361-362) and leaves every other
name to the base class surface. Generation itself only binds attributes;
nothing is invoked or raised at generation time. -/
def generate_rest_view (attrs : List String) (base : String → Option ViewAttr) :
    String → Option ViewAttr :=
  fun name =>
    if name ∈ valid_attrs ∧ name ∉ attrs then some ViewAttr.attrErrorProp
    else base name

/-- What invoking an operation name on a generated view yields. -/
inductive InvokeOutcome
  | executed
  | methodNotAllowed
  | missingMethod
  deriving DecidableEq

/-- Invoking an operation at request time: an inherited handler runs; the
property(_attr_error) binding raises the MethodNotAllowed signal; a name
bound to nothing is a generic missing-method error. -/
def invoke (view : String → Option ViewAttr) (name : String) : InvokeOutcome :=
  match view name with
  | some ViewAttr.handler => InvokeOutcome.executed
  | some ViewAttr.attrErrorProp => InvokeOutcome.methodNotAllowed
  | Option.none => InvokeOutcome.missingMethod

/-! Dict laws for the association-list embedding of Python dicts. -/

theorem lookupP_setP_self (ps : Params) (k : String) (v : Py) :
    lookupP (setP ps k v) k = some v := by
  induction ps with
  | nil => simp [setP, lookupP]
  | cons p rest ih =>
    by_cases h : p.1 = k
    · simp [setP, h, lookupP]
    · simp [setP, h, lookupP, ih]

theorem lookupP_setP_ne (ps : Params) (k k2 : String) (v : Py) (h : k2 ≠ k) :
    lookupP (setP ps k v) k2 = lookupP ps k2 := by
  induction ps with
  | nil => simp [setP, lookupP, Ne.symm h]
  | cons p rest ih =>
    by_cases hp : p.1 = k
    · simp [setP, hp, lookupP, Ne.symm h]
    · simp [setP, hp, lookupP, ih]

theorem lookupP_removeP_self (ps : Params) (k : String) :
    lookupP (removeP ps k) k = Option.none := by
  induction ps with
  | nil => simp [removeP, lookupP]
  | cons p rest ih =>
    by_cases h : p.1 = k
    · simp [removeP, h, ih]
    · simp [removeP, h, lookupP, ih]

theorem lookupP_removeP_ne (ps : Params) (k k2 : String) (h : k2 ≠ k) :
    lookupP (removeP ps k) k2 = lookupP ps k2 := by
  induction ps with
  | nil => simp [removeP]
  | cons p rest ih =>
    by_cases hp : p.1 = k
    · simp [removeP, hp, lookupP, Ne.symm h, ih]
    · simp [removeP, hp, lookupP, ih]

/-- Characterization of _get_raw_terms: the reserved key is gone from the
returned params, the raw terms string is the AND-join of the supplied
terms (the value of q when present, none otherwise), and every other key
is untouched. -/
theorem get_raw_terms_spec (params : Params) (pr : String × Params)
    (h : get_raw_terms params = Except.ok pr) :
    lookupP pr.2 "q" = Option.none
    ∧ pr.1 = raw_terms_of params
    ∧ ∀ k, k ≠ "q" → lookupP pr.2 k = lookupP params k := by
  unfold get_raw_terms at h
  split at h
  · rename_i hq
    injection h with h1
    subst h1
    refine ⟨hq, by unfold raw_terms_of; rw [hq], fun k _ => rfl⟩
  · rename_i v hq
    injection h with h1
    subst h1
    refine ⟨lookupP_removeP_self params "q", by unfold raw_terms_of; rw [hq], ?_⟩
    intro k hk
    exact lookupP_removeP_ne params "q" k hk
  · exact Except.noConfusion h

/-- Unfolding of parent_queryset_es on a resource whose parent carries a
view. -/
theorem parent_queryset_es_true_eq (parent_obj : Obj) (prop : String) :
    parent_queryset_es true parent_obj prop =
      (match getattrND parent_obj prop with
       | Py.noneV => Except.ok Option.none
       | Py.list l => Except.ok (some (l.map Atom.pyStr))
       | Py.atom _ => Except.error Err.typeError) := rfl

/-- Case analysis of get_item_es over the resolved parent restriction. -/
theorem get_item_es_cases (hasView : Bool) (parent_obj : Obj) (prop idName : String)
    (idArg : Py) (r : Option (List String))
    (h : parent_queryset_es hasView parent_obj prop = Except.ok r) :
    get_item_es hasView parent_obj prop idName idArg = item_es_outcome idName idArg r := by
  unfold get_item_es
  split
  all_goals rename_i heq
  · rw [h] at heq
    exact Except.noConfusion heq
  · rw [h] at heq
    injection heq with h2
    subst h2
    rfl
  · rw [h] at heq
    injection heq with h2
    subst h2
    rfl

/-- Case analysis of get_collection_es over the resolved parent
restriction. -/
theorem get_collection_es_cases (hasView : Bool) (parent_obj : Obj) (prop : String)
    (params : Params) (r : Option (List String))
    (h : parent_queryset_es hasView parent_obj prop = Except.ok r) :
    get_collection_es hasView parent_obj prop params = gces_outcome params r := by
  unfold get_collection_es
  split
  · rename_i heq
    rw [h] at heq
    exact Except.noConfusion heq
  · rename_i heq
    rw [h] at heq
    injection heq with h2
    subst h2
    rfl
  · rename_i l hne heq
    rw [h] at heq
    injection heq with h2
    subst h2
    cases l with
    | nil => exact absurd rfl hne
    | cons a t => rfl
  · rename_i heq
    rw [h] at heq
    injection heq with h2
    subst h2
    rfl

/-! Claim theorems. -/

/-- C1: for every index-backed item read (get_item_es) whose parent
restriction resolves to a concrete id set, an empty restriction or a
non-empty one not containing the requested id (in canonical string form)
fails with NotFound and issues zero index queries; otherwise (restriction
absent, or containing the id) the single index query is issued with
_limit = 1 and __raise_on_empty = True. -/
theorem item_es_C1 (parent_obj : Obj) (prop idName : String) (idArg : Py)
    (r : Option (List String))
    (h : parent_queryset_es true parent_obj prop = Except.ok r) :
    get_item_es true parent_obj prop idName idArg = item_es_outcome idName idArg r
    ∧ item_es_query_count (get_item_es true parent_obj prop idName idArg) =
        item_es_outcome_count idArg r
    ∧ lookupP (item_es_kwargs idName idArg.pyStr) "_limit" = some (Py.atom (Atom.int 1))
    ∧ lookupP (item_es_kwargs idName idArg.pyStr) "__raise_on_empty" =
        some (Py.atom (Atom.bool true)) := by
  have he := get_item_es_cases true parent_obj prop idName idArg r h
  refine ⟨he, ?_, ?_, ?_⟩
  · rw [he]
    cases r with
    | none => rfl
    | some l =>
      by_cases hm : idArg.pyStr ∈ l <;>
        simp [hm, item_es_outcome, item_es_outcome_count, item_es_query_count]
  · unfold item_es_kwargs
    rw [lookupP_setP_ne _ _ _ _ (by decide), lookupP_setP_self]
  · unfold item_es_kwargs
    rw [lookupP_setP_self]

/-- Witness for C1: author with books [1, 2]; requesting book 3 under that
author fails with NotFound before any index query. -/
theorem item_es_C1_witness :
    get_item_es true ⟨[("books", Py.list [Atom.str "1", Atom.str "2"])]⟩ "books"
      "book_id" (Py.atom (Atom.str "3")) = Except.error Err.notFound := by
  have h := (item_es_C1 ⟨[("books", Py.list [Atom.str "1", Atom.str "2"])]⟩ "books"
    "book_id" (Py.atom (Atom.str "3")) (some ["1", "2"]) rfl).1
  exact h.trans (by rfl)

/-- C2 (code bug): update_many pops _limit, but get_collection re-inserts
it into the shared params dict, so the payload passed to _update_many
contains the _limit key (value 5 here, and even None when no limit was
supplied), contradicting the claim that the bulk-update payload excludes
the limit key. -/
theorem update_many_C2 :
    lookupP (update_many false false ⟨[]⟩ "c"
        [("_limit", Py.atom (Atom.int 5)), ("name", Py.atom (Atom.str "x"))]).payload
      "_limit" = some (Py.atom (Atom.int 5))
    ∧ lookupP (update_many false false ⟨[]⟩ "c"
        [("name", Py.atom (Atom.str "x"))]).payload "_limit" = some Py.noneV :=
  ⟨rfl, rfl⟩

/-- C3: a parent relation resolving to the empty collection short-circuits
both backends: the index read returns [] with zero index queries, and the
store resolver returns the empty restriction, on which the store accessor
(modelled from the spec) returns an empty result with zero physical
queries. -/
theorem empty_restriction_C3 (db memf : Params → List Atom) (parent_obj : Obj)
    (prop : String) (params kwargs : Params)
    (h : parent_queryset_es true parent_obj prop = Except.ok (some [])) :
    get_collection_es true parent_obj prop params = Except.ok GCES.empty
    ∧ gces_query_count (get_collection_es true parent_obj prop params) = 0
    ∧ parent_queryset true false parent_obj prop = Py.list []
    ∧ store_read db memf (get_collection true false parent_obj prop params kwargs) =
        ([], 0) := by
  have hg : getattrND parent_obj prop = Py.list [] := by
    rw [parent_queryset_es_true_eq] at h
    revert h
    cases getattrND parent_obj prop with
    | atom a => intro h; exact Except.noConfusion h
    | noneV => intro h; simp at h
    | list l =>
      intro h
      simp only [Except.ok.injEq, Option.some.injEq, List.map_eq_nil_iff] at h
      rw [h]
  have hc : get_collection_es true parent_obj prop params = Except.ok GCES.empty :=
    (get_collection_es_cases true parent_obj prop params (some []) h).trans rfl
  have hq : parent_queryset true false parent_obj prop = Py.list [] := hg
  have hgc : get_collection true false parent_obj prop params kwargs =
      GCStore.filtered (Py.list []) (updateP params kwargs) := by
    unfold get_collection
    rw [hq]
  exact ⟨hc, by rw [hc]; rfl, hq, by rw [hgc]; rfl⟩

/-- Witness for C3: author whose books relation is the empty list; both
reads short-circuit even though the opaque backends would answer with a
non-empty result. -/
theorem empty_restriction_C3_witness :
    get_collection_es true ⟨[("books", Py.list [])]⟩ "books"
      [("x", Py.atom (Atom.int 1))] = Except.ok GCES.empty
    ∧ store_read (fun _ => [Atom.int 9]) (fun _ => [Atom.int 9])
        (get_collection true false ⟨[("books", Py.list [])]⟩ "books"
          [("x", Py.atom (Atom.int 1))] []) = ([], 0) := by
  have h := empty_restriction_C3 (fun _ => [Atom.int 9]) (fun _ => [Atom.int 9])
    ⟨[("books", Py.list [])]⟩ "books" [("x", Py.atom (Atom.int 1))] [] rfl
  exact ⟨h.1, h.2.2.2⟩

/-- C4: every canonical operation name not in the allowed set is still
exposed on the generated view (bound to the property raising the
MethodNotAllowed signal, not left undefined), and invoking it yields
MethodNotAllowed; generation itself (generate_rest_view, a total function)
raises nothing. -/
theorem generator_C4 (attrs : List String) (base : String → Option ViewAttr)
    (name : String) (h1 : name ∈ valid_attrs) (h2 : name ∉ attrs) :
    generate_rest_view attrs base name = some ViewAttr.attrErrorProp
    ∧ invoke (generate_rest_view attrs base) name = InvokeOutcome.methodNotAllowed := by
  have hg : generate_rest_view attrs base name = some ViewAttr.attrErrorProp := by
    unfold generate_rest_view
    exact if_pos ⟨h1, h2⟩
  refine ⟨hg, ?_⟩
  unfold invoke
  rw [hg]

/-- Witness for C4: a view generated with only index and show allowed still
exposes delete_many, and invoking it yields MethodNotAllowed. -/
theorem generator_C4_witness :
    invoke (generate_rest_view ["index", "show"] (fun _ => some ViewAttr.handler))
      "delete_many" = InvokeOutcome.methodNotAllowed :=
  (generator_C4 ["index", "show"] (fun _ => some ViewAttr.handler) "delete_many"
    (by decide) (by decide)).2

/-- C5: delete_many without the confirmation marker returns the resolved
candidate set with its count and performs no mutation; with the marker it
performs exactly one bulk removal of the set resolved at that invocation
and reports that count. -/
theorem delete_many_C5 (objects : List Atom) :
    delete_many objects false = (DMResult.candidates objects objects.length, [])
    ∧ delete_many objects true = (DMResult.deleted objects.length, [objects]) :=
  ⟨rfl, rfl⟩

/-- C6: when the parent resource carries no view (the parent is the root),
both resolvers return the unrestricted outcome whatever the parent object
or request context, and the store collection read is the unrestricted
query carrying only the request params. -/
theorem root_C6 (isItemSub : Bool) (parent_obj : Obj) (prop : String)
    (params kwargs : Params) :
    parent_queryset false isItemSub parent_obj prop = Py.noneV
    ∧ parent_queryset_es false parent_obj prop = Except.ok Option.none
    ∧ get_collection false isItemSub parent_obj prop params kwargs =
        GCStore.full (updateP params kwargs) :=
  ⟨rfl, rfl, rfl⟩

/-- C7: when the resolved parent object exists but lacks the attribute
named by the collection name, both the store and the index resolver return
the unrestricted outcome without error, and the store collection read is
the unrestricted query. -/
theorem absent_relation_C7 (parent_obj : Obj) (prop : String)
    (h : lookupP parent_obj.attrs prop = Option.none) :
    parent_queryset true false parent_obj prop = Py.noneV
    ∧ parent_queryset_es true parent_obj prop = Except.ok Option.none
    ∧ ∀ params kwargs, get_collection true false parent_obj prop params kwargs =
        GCStore.full (updateP params kwargs) := by
  have hg : getattrND parent_obj prop = Py.noneV := by
    unfold getattrND
    rw [h]
    rfl
  refine ⟨hg, ?_, ?_⟩
  · rw [parent_queryset_es_true_eq, hg]
  · intro params kwargs
    unfold get_collection
    have hq : parent_queryset true false parent_obj prop = Py.noneV := hg
    rw [hq]

/-- Witness for C7: a parent object with no books attribute resolves to
the unrestricted outcome on both paths. -/
theorem absent_relation_C7_witness :
    parent_queryset true false ⟨[("name", Py.atom (Atom.str "bob"))]⟩ "books" = Py.noneV
    ∧ parent_queryset_es true ⟨[("name", Py.atom (Atom.str "bob"))]⟩ "books" =
        Except.ok Option.none := by
  have h := absent_relation_C7 ⟨[("name", Py.atom (Atom.str "bob"))]⟩ "books" rfl
  exact ⟨h.1, h.2.1⟩

/-- Helper: when the parent restriction resolution raises, get_collection_es
propagates the error and issues no index query. -/
theorem get_collection_es_error (hasView : Bool) (parent_obj : Obj) (prop : String)
    (params : Params) (e : Err)
    (h : parent_queryset_es hasView parent_obj prop = Except.error e) :
    get_collection_es hasView parent_obj prop params = Except.error e := by
  unfold get_collection_es
  split
  · rename_i heq
    rw [h] at heq
    injection heq with h2
    subst h2
    rfl
  · rename_i heq
    rw [h] at heq
    exact Except.noConfusion heq
  · rename_i l hne heq
    rw [h] at heq
    exact Except.noConfusion heq
  · rename_i heq
    rw [h] at heq
    exact Except.noConfusion heq

/-- C8: for every index collection read whose parent restriction is a
non-empty concrete id set, the id filter of the issued index query is
exactly that restriction set, whatever the client put in the request
params (including any client-supplied id value, which the dict assignment
overwrites). -/
theorem id_filter_C8 (parent_obj : Obj) (prop : String) (params : Params)
    (ids : List String) (raw : String) (qparams : Params)
    (h1 : parent_queryset_es true parent_obj prop = Except.ok (some ids))
    (h2 : ids ≠ [])
    (h3 : get_collection_es true parent_obj prop params =
        Except.ok (GCES.call raw qparams)) :
    lookupP qparams "id" = some (Py.list (ids.map Atom.str)) := by
  rw [get_collection_es_cases true parent_obj prop params (some ids) h1] at h3
  cases ids with
  | nil => exact absurd rfl h2
  | cons a t =>
    have h4 : (match get_raw_terms (setP params "id" (Py.list ((a :: t).map Atom.str))) with
               | Except.error e => (Except.error e : Except Err GCES)
               | Except.ok pr => Except.ok (GCES.call pr.1 pr.2)) =
        Except.ok (GCES.call raw qparams) := h3
    cases hraw : get_raw_terms (setP params "id" (Py.list ((a :: t).map Atom.str))) with
    | error e =>
      rw [hraw] at h4
      exact Except.noConfusion h4
    | ok pr =>
      rw [hraw] at h4
      injection h4 with h5
      injection h5 with h6 h7
      subst h7
      have spec := get_raw_terms_spec _ pr hraw
      rw [spec.2.2 "id" (by decide), lookupP_setP_self]

/-- Witness for C8: the client supplies its own id filter 999, but the
query issued under a parent restricted to [1, 2] carries exactly [1, 2]. -/
theorem id_filter_C8_witness :
    lookupP [("id", Py.list [Atom.str "1", Atom.str "2"])] "id" =
      some (Py.list (["1", "2"].map Atom.str)) :=
  id_filter_C8 ⟨[("books", Py.list [Atom.str "1", Atom.str "2"])]⟩ "books"
    [("id", Py.list [Atom.str "999"])] ["1", "2"] (String.intercalate " AND " [])
    [("id", Py.list [Atom.str "1", Atom.str "2"])] rfl (by decide) rfl

/-- C9: deleting a singular resource sets the parent relation attribute to
None and leaves every other attribute of the parent unchanged, and a
subsequent show on the singular resource returns the absent value (None)
rather than an error. -/
theorem singular_C9 (parent_obj : Obj) (attr k : String) (hk : k ≠ attr) :
    singular_show (singular_delete parent_obj attr) attr = Except.ok Py.noneV
    ∧ lookupP (singular_delete parent_obj attr).attrs k = lookupP parent_obj.attrs k := by
  have hd : (singular_delete parent_obj attr).attrs = setP parent_obj.attrs attr Py.noneV :=
    rfl
  constructor
  · unfold singular_show getattr_strict
    rw [hd, lookupP_setP_self]
  · rw [hd, lookupP_setP_ne _ _ _ _ hk]

/-- Witness for C9: user with a profile and a name; deleting the profile
relation clears it (show returns None) and leaves the name unchanged. -/
theorem singular_C9_witness :
    singular_show
        (singular_delete ⟨[("profile", Py.atom (Atom.int 7)),
          ("name", Py.atom (Atom.str "u"))]⟩ "profile") "profile" = Except.ok Py.noneV
    ∧ lookupP (singular_delete ⟨[("profile", Py.atom (Atom.int 7)),
          ("name", Py.atom (Atom.str "u"))]⟩ "profile").attrs "name" =
        some (Py.atom (Atom.str "u")) := by
  have h := singular_C9 ⟨[("profile", Py.atom (Atom.int 7)),
    ("name", Py.atom (Atom.str "u"))]⟩ "profile" "name" (by decide)
  exact ⟨h.1, h.2.trans rfl⟩

/-- C10: every issued index collection query has the reserved free-text
key removed from its data filters, and its raw terms string is the
AND-join of the supplied free-text terms (the value of the reserved key
when present, the empty join otherwise). -/
theorem raw_terms_C10 (hasView : Bool) (parent_obj : Obj) (prop : String)
    (params : Params) (raw : String) (qparams : Params)
    (h : get_collection_es hasView parent_obj prop params =
        Except.ok (GCES.call raw qparams)) :
    lookupP qparams "q" = Option.none ∧ raw = raw_terms_of params := by
  cases hpq : parent_queryset_es hasView parent_obj prop with
  | error e =>
    rw [get_collection_es_error hasView parent_obj prop params e hpq] at h
    exact Except.noConfusion h
  | ok oid =>
    rw [get_collection_es_cases hasView parent_obj prop params oid hpq] at h
    cases oid with
    | none =>
      have h4 : (match get_raw_terms params with
                 | Except.error e => (Except.error e : Except Err GCES)
                 | Except.ok pr => Except.ok (GCES.call pr.1 pr.2)) =
          Except.ok (GCES.call raw qparams) := h
      cases hraw : get_raw_terms params with
      | error e =>
        rw [hraw] at h4
        exact Except.noConfusion h4
      | ok pr =>
        rw [hraw] at h4
        injection h4 with h5
        injection h5 with h6 h7
        subst h6
        subst h7
        have spec := get_raw_terms_spec params pr hraw
        exact ⟨spec.1, spec.2.1⟩
    | some l =>
      cases l with
      | nil =>
        have h4 : (Except.ok GCES.empty : Except Err GCES) =
            Except.ok (GCES.call raw qparams) := h
        injection h4 with h5
        exact GCES.noConfusion h5
      | cons a t =>
        have h4 : (match get_raw_terms (setP params "id" (Py.list ((a :: t).map Atom.str))) with
                   | Except.error e => (Except.error e : Except Err GCES)
                   | Except.ok pr => Except.ok (GCES.call pr.1 pr.2)) =
            Except.ok (GCES.call raw qparams) := h
        cases hraw : get_raw_terms (setP params "id" (Py.list ((a :: t).map Atom.str))) with
        | error e =>
          rw [hraw] at h4
          exact Except.noConfusion h4
        | ok pr =>
          rw [hraw] at h4
          injection h4 with h5
          injection h5 with h6 h7
          subst h6
          subst h7
          have spec := get_raw_terms_spec _ pr hraw
          refine ⟨spec.1, ?_⟩
          rw [spec.2.1]
          unfold raw_terms_of
          rw [lookupP_setP_ne _ _ _ _ (by decide)]

/-- Witness for C10: a root collection read with q = alpha issues a query
whose params no longer carry q and whose raw terms string is alpha. -/
theorem raw_terms_C10_witness :
    lookupP [("z", Py.atom (Atom.int 3))] "q" = Option.none :=
  (raw_terms_C10 false ⟨[]⟩ "p"
    [("q", Py.atom (Atom.str "alpha")), ("z", Py.atom (Atom.int 3))]
    (String.intercalate " AND " ["alpha"]) [("z", Py.atom (Atom.int 3))] rfl).1

end Ramses
